import Mathlib

/-!
Verification of the live-evaluation / test-submission core of the
pariksha-3d-guardian repository.

The embedding below translates, function by function, the reconciliation and
workflow logic of the source files:
  * `useLiveEvaluation` (session/answer change-feed handlers, `getLiveStats`,
    `gradeAnswer`),
  * `useTestSubmission` (`getOrCreateSession`, `submitAnswer`, `submitTest`),
  * the faculty termination/reinstatement commands used by
    `LiveMonitoringDashboard`.
Stores are lists (preserving arrival order, as the React state arrays do),
the durable store is a record of row lists with a fresh-id counter, and
storage failures are injected through explicit boolean oracles standing for
the error results the source code catches.
-/

/-- In-memory session record of the live store (`LiveSession` in
`useLiveEvaluation`), with the joined student profile flattened into two
optional fields. -/
structure LiveSession where
  id : String
  student_id : String
  test_id : String
  status : String
  started_at : Option String
  submitted_at : Option String
  total_warnings : Nat
  tab_switch_count : Nat
  fullscreen_exit_count : Nat
  student_name : Option String
  student_email : Option String
deriving Repr, DecidableEq

/-- In-memory answer record of the live store (`LiveAnswer` in
`useLiveEvaluation`). -/
structure LiveAnswer where
  id : String
  session_id : String
  question_id : String
  student_answer : Option String
  marks_awarded : Option Int
  is_correct : Option Bool
  graded_by : Option String
  graded_at : Option String
deriving Repr, DecidableEq

/-- Partial row carried by an UPDATE feed event for `test_sessions`
(`payload.new`): the id is always present, every other column may or may not
be present.  A `some v` field overrides the stored value on merge, a `none`
field leaves it unchanged, exactly like the spread `{ ...s, ...payload.new }`
in the session UPDATE handler. -/
structure SessionPatch where
  id : String
  student_id : Option String
  test_id : Option String
  status : Option String
  started_at : Option (Option String)
  submitted_at : Option (Option String)
  total_warnings : Option Nat
  tab_switch_count : Option Nat
  fullscreen_exit_count : Option Nat
deriving Repr, DecidableEq

/-- Partial row carried by an UPDATE feed event for `answers`
(`payload.new` in the answer UPDATE handler). -/
structure AnswerPatch where
  id : String
  session_id : Option String
  question_id : Option String
  student_answer : Option (Option String)
  marks_awarded : Option (Option Int)
  is_correct : Option (Option Bool)
  graded_by : Option (Option String)
  graded_at : Option (Option String)
deriving Repr, DecidableEq

/-- Field-wise merge `{ ...s, ...payload.new }` of the session UPDATE
handler.  The denormalized student fields are never part of a feed payload,
so the merge keeps them from the stored record. -/
def applySessionPatch (s : LiveSession) (p : SessionPatch) : LiveSession :=
  { id := p.id
    student_id := p.student_id.getD s.student_id
    test_id := p.test_id.getD s.test_id
    status := p.status.getD s.status
    started_at := p.started_at.getD s.started_at
    submitted_at := p.submitted_at.getD s.submitted_at
    total_warnings := p.total_warnings.getD s.total_warnings
    tab_switch_count := p.tab_switch_count.getD s.tab_switch_count
    fullscreen_exit_count := p.fullscreen_exit_count.getD s.fullscreen_exit_count
    student_name := s.student_name
    student_email := s.student_email }

/-- Field-wise merge `{ ...a, ...payload.new }` of the answer UPDATE
handler. -/
def applyAnswerPatch (a : LiveAnswer) (p : AnswerPatch) : LiveAnswer :=
  { id := p.id
    session_id := p.session_id.getD a.session_id
    question_id := p.question_id.getD a.question_id
    student_answer := p.student_answer.getD a.student_answer
    marks_awarded := p.marks_awarded.getD a.marks_awarded
    is_correct := p.is_correct.getD a.is_correct
    graded_by := p.graded_by.getD a.graded_by
    graded_at := p.graded_at.getD a.graded_at }

/-- Change-feed event on the `test_sessions` channel.  For INSERT the handler
performs a secondary fetch of the full row joined with the student profile;
the event carries that fetch result (`none` when the fetch returned no
data). -/
inductive SessionEvent where
  | insert (fetched : Option LiveSession)
  | update (patch : SessionPatch)
  | delete (oldId : String)
deriving Repr, DecidableEq

/-- Change-feed event on the `answers` channel.  INSERT carries the full new
row (`payload.new as LiveAnswer`). -/
inductive AnswerEvent where
  | insert (row : LiveAnswer)
  | update (patch : AnswerPatch)
  | delete (oldId : String)
deriving Repr, DecidableEq

/-- Session-channel handler of `useLiveEvaluation`: INSERT appends the
fetched record (`setSessions(prev => [...prev, { ...data, student: ... }])`),
UPDATE maps the merge over records with a matching id, DELETE filters the
matching id out. -/
def sessionReconcile (prev : List LiveSession) (e : SessionEvent) : List LiveSession :=
  match e with
  | .insert fetched =>
      match fetched with
      | some s => prev ++ [s]
      | none => prev
  | .update p => prev.map (fun s => if s.id = p.id then applySessionPatch s p else s)
  | .delete oldId => prev.filter (fun s => s.id ≠ oldId)

/-- Answer-channel handler of `useLiveEvaluation`: INSERT appends
`payload.new`, UPDATE maps the merge over records with a matching id, DELETE
filters the matching id out. -/
def answerReconcile (prev : List LiveAnswer) (e : AnswerEvent) : List LiveAnswer :=
  match e with
  | .insert row => prev ++ [row]
  | .update p => prev.map (fun a => if a.id = p.id then applyAnswerPatch a p else a)
  | .delete oldId => prev.filter (fun a => a.id ≠ oldId)

/-- Result record of `getLiveStats`. -/
structure LiveStats where
  totalSessions : Nat
  activeSessions : Nat
  submittedSessions : Nat
  terminatedSessions : Nat
  totalAnswers : Nat
  gradedAnswers : Nat
  pendingGrading : Nat
deriving Repr, DecidableEq

/-- `getLiveStats` of `useLiveEvaluation`: counts sessions by status class
and answers by whether `graded_by` is non-null; `pendingGrading` is the
difference `totalAnswers - gradedAnswers`. -/
def getLiveStats (sessions : List LiveSession) (answers : List LiveAnswer) : LiveStats :=
  let activeSessions := sessions.filter (fun s => s.status = "active" ∨ s.status = "in_progress")
  let submittedSessions := sessions.filter (fun s => s.status = "completed" ∨ s.status = "submitted")
  let terminatedSessions := sessions.filter (fun s => s.status = "terminated")
  let totalAnswers := answers.length
  let gradedAnswers := (answers.filter (fun a => a.graded_by ≠ none)).length
  { totalSessions := sessions.length
    activeSessions := activeSessions.length
    submittedSessions := submittedSessions.length
    terminatedSessions := terminatedSessions.length
    totalAnswers := totalAnswers
    gradedAnswers := gradedAnswers
    pendingGrading := totalAnswers - gradedAnswers }

/-- Durable-store session row (`test_sessions` table). -/
structure SessionRow where
  id : Nat
  test_id : String
  student_id : String
  status : String
  started_at : Option String
  submitted_at : Option String
  total_warnings : Nat
  tab_switch_count : Nat
  fullscreen_exit_count : Nat
deriving Repr, DecidableEq

/-- Durable-store answer row (`answers` table). -/
structure AnswerRow where
  id : Nat
  session_id : Nat
  question_id : String
  student_answer : Option String
  updated_at : Option String
  marks_awarded : Option Int
  is_correct : Option Bool
  graded_by : Option String
  graded_at : Option String
deriving Repr, DecidableEq

/-- Durable store reached over the request/response interface: the two row
tables touched by the workflows, plus counters supplying the ids the storage
layer generates on insert. -/
structure DB where
  sessions : List SessionRow
  answers : List AnswerRow
  nextSessionId : Nat
  nextAnswerId : Nat
deriving Repr, DecidableEq

/-- Well-formedness of the answer table as maintained by the storage layer:
ids are pairwise distinct and below the generation counter (so a freshly
generated id never collides). -/
def DB.AnswersWF (db : DB) : Prop :=
  (db.answers.map (fun a => a.id)).Nodup ∧ ∀ a ∈ db.answers, a.id < db.nextAnswerId

/-- Per-session uniqueness of answers, the invariant the storage layer is
required to enforce on (session_id, question_id): the given session holds at
most one answer row per question. -/
def DB.PairAtMostOne (db : DB) (sid : Nat) : Prop :=
  ∀ q : String,
    (db.answers.filter (fun a => a.session_id = sid ∧ a.question_id = q)).length ≤ 1

/-- Semantics of the `.single()` query modifier of the storage client: a query result is
returned as data exactly when it holds a single row; zero rows or several
rows produce an error, which the source code treats as "no existing row". -/
def singleResult {α : Type} (l : List α) : Option α :=
  match l with
  | [x] => some x
  | _ => none

/-- `getOrCreateSession` of `useTestSubmission`: look up the (testId,
studentId) session with `.single()`; if found return it with the store
untouched, otherwise insert a new row with status `active` and `started_at`
now.  `fails` injects a storage error on the insert path (`createError`),
which the source re-throws: the call then produces no session (`none`). -/
def getOrCreateSession (db : DB) (fails : Bool) (testId studentId now : String) :
    Option (DB × SessionRow) :=
  match singleResult (db.sessions.filter
      (fun s => s.test_id = testId ∧ s.student_id = studentId)) with
  | some s => some (db, s)
  | none =>
      if fails then none
      else
        let s : SessionRow :=
          { id := db.nextSessionId,
            test_id := testId,
            student_id := studentId,
            status := "active",
            started_at := some now,
            submitted_at := none,
            total_warnings := 0,
            tab_switch_count := 0,
            fullscreen_exit_count := 0 }
        some ({ db with sessions := db.sessions ++ [s],
                        nextSessionId := db.nextSessionId + 1 }, s)

/-- `submitAnswer` of `useTestSubmission`: look up the existing answer for
(sessionId, questionId) with `.single()`; update its text (and `updated_at`)
if found, insert a new row otherwise.  `fails` injects a storage error on
the write, which the catch block converts into a `false` result with the
store unchanged. -/
def submitAnswer (db : DB) (fails : Bool) (sessionId : Nat) (questionId answer now : String) :
    DB × Bool :=
  match singleResult (db.answers.filter
      (fun a => a.session_id = sessionId ∧ a.question_id = questionId)) with
  | some existing =>
      if fails then (db, false)
      else
        ({ db with answers := db.answers.map (fun a =>
              if a.id = existing.id then
                { a with student_answer := some answer, updated_at := some now }
              else a) }, true)
  | none =>
      if fails then (db, false)
      else
        let row : AnswerRow :=
          { id := db.nextAnswerId,
            session_id := sessionId,
            question_id := questionId,
            student_answer := some answer,
            updated_at := none,
            marks_awarded := none,
            is_correct := none,
            graded_by := none,
            graded_at := none }
        ({ db with answers := db.answers ++ [row],
                   nextAnswerId := db.nextAnswerId + 1 }, true)

/-- Answer phase of `submitTest`: fire `submitAnswer` for every entry of the
answers map.  The source awaits all the per-question promises but never
inspects their boolean results, so only the store effects remain. -/
def submitAnswersPhase (db : DB) (failsA : String → Bool) (sessionId : Nat)
    (answers : List (String × String)) (now : String) : DB :=
  answers.foldl
    (fun d qa => (submitAnswer d (failsA qa.1) sessionId qa.1 qa.2 now).1) db

/-- `submitTest` of `useTestSubmission`: fire `submitAnswer` for every entry
of the answers map (their boolean results are awaited but not inspected),
then write the session status — `terminated` when forced, `completed`
otherwise — stamping `submitted_at`.  `failsA` says which per-question
answer writes fail; `failsS` injects a storage error on the status write,
which the catch block converts into a `false` result. -/
def submitTest (db : DB) (failsA : String → Bool) (failsS : Bool) (sessionId : Nat)
    (answers : List (String × String)) (forced : Bool) (now : String) : DB × Bool :=
  let db1 := submitAnswersPhase db failsA sessionId answers now
  if failsS then (db1, false)
  else
    ({ db1 with sessions := db1.sessions.map (fun s =>
          if s.id = sessionId then
            { s with status := if forced then "terminated" else "completed",
                     submitted_at := some now }
          else s) }, true)

/-- `gradeAnswer` of `useLiveEvaluation`: a single update of the row(s)
matching `answerId`, writing the marks, the derived correctness
`marks > 0`, the grader and the grading time.  A filter matching no row is
not an error for the storage client, so `fails` only models a storage/
network error on the write itself; the catch block turns it into `false`
with the store unchanged. -/
def gradeAnswer (db : DB) (fails : Bool) (answerId : Nat) (marks : Int)
    (graderId now : String) : DB × Bool :=
  if fails then (db, false)
  else
    ({ db with answers := db.answers.map (fun a =>
          if a.id = answerId then
            { a with marks_awarded := some marks,
                     is_correct := some (decide (marks > 0)),
                     graded_by := some graderId,
                     graded_at := some now }
          else a) }, true)

/-- Modelled from the spec: the implementation of `useRealtimeTestSessions`,
which provides `terminateStudent` to `LiveMonitoringDashboard`, is not among
the provided sources (only its caller is).  Per the spec, `terminateStudent
(sessionId)` sets the status of the session to `terminated`. -/
def terminateStudent (db : DB) (sessionId : Nat) : DB :=
  { db with sessions := db.sessions.map (fun s =>
      if s.id = sessionId then { s with status := "terminated" } else s) }

/-- Modelled from the spec: the implementation of `useRealtimeTestSessions`,
which provides `allowContinue` to `LiveMonitoringDashboard`, is not among
the provided sources (only its caller is).  Per the spec, `allowContinue
(sessionId)` sets the status of the session back to `in_progress`. -/
def allowContinue (db : DB) (sessionId : Nat) : DB :=
  { db with sessions := db.sessions.map (fun s =>
      if s.id = sessionId then { s with status := "in_progress" } else s) }

/-- Concrete live answer record used as a test vector. -/
def liveAnswerEx : LiveAnswer :=
  { id := "a1", session_id := "s1", question_id := "q1",
    student_answer := some "x", marks_awarded := none, is_correct := none,
    graded_by := none, graded_at := none }

/-- Concrete answer UPDATE patch for id `a1`, carrying grading fields only. -/
def answerPatchEx : AnswerPatch :=
  { id := "a1", session_id := none, question_id := none,
    student_answer := none, marks_awarded := some (some 5), is_correct := none,
    graded_by := some (some "fac1"), graded_at := none }

/-- Concrete answer UPDATE patch whose id matches no record of the test
vectors. -/
def answerPatchAbsentEx : AnswerPatch :=
  { id := "zz", session_id := none, question_id := none,
    student_answer := none, marks_awarded := none, is_correct := none,
    graded_by := none, graded_at := none }

/-- Concrete session UPDATE patch whose id matches no record of the test
vectors. -/
def sessionPatchAbsentEx : SessionPatch :=
  { id := "zz", student_id := none, test_id := none, status := none,
    started_at := none, submitted_at := none, total_warnings := none,
    tab_switch_count := none, fullscreen_exit_count := none }

/-- Concrete live session record in progress. -/
def liveSessionEx : LiveSession :=
  { id := "s1", student_id := "stu1", test_id := "t1", status := "in_progress",
    started_at := some "T0", submitted_at := none, total_warnings := 0,
    tab_switch_count := 0, fullscreen_exit_count := 0,
    student_name := some "A Student", student_email := some "a@example.com" }

/-- Concrete live session record whose status (`not_started`) lies outside
the three status classes counted by `getLiveStats`. -/
def liveSessionNotStartedEx : LiveSession :=
  { liveSessionEx with id := "s2", status := "not_started" }

/-- Concrete durable-store session row. -/
def sessionRowEx : SessionRow :=
  { id := 0, test_id := "t1", student_id := "stu1", status := "in_progress",
    started_at := some "T0", submitted_at := none, total_warnings := 0,
    tab_switch_count := 0, fullscreen_exit_count := 0 }

/-- Concrete durable-store answer row. -/
def answerRowEx : AnswerRow :=
  { id := 0, session_id := 0, question_id := "q1", student_answer := some "old",
    updated_at := none, marks_awarded := none, is_correct := none,
    graded_by := none, graded_at := none }

/-- Concrete durable store holding one session and no answers. -/
def dbEx : DB :=
  { sessions := [sessionRowEx], answers := [], nextSessionId := 1, nextAnswerId := 0 }

/-- Concrete durable store holding one session and one ungraded answer. -/
def dbAnsEx : DB :=
  { sessions := [sessionRowEx], answers := [answerRowEx], nextSessionId := 1,
    nextAnswerId := 1 }

/-- The answer row of `dbAnsEx` as `gradeAnswer` rewrites it for 5 marks. -/
def answerRowGradedEx : AnswerRow :=
  { answerRowEx with marks_awarded := some 5, is_correct := some true,
                     graded_by := some "fac1", graded_at := some "T1" }

/-- Empty durable store. -/
def dbEmpty : DB :=
  { sessions := [], answers := [], nextSessionId := 0, nextAnswerId := 0 }

/-- Failure oracle making exactly the write for question `q1` fail. -/
def failsQ1 : String → Bool := fun q => q = "q1"

lemma getD_getD {α : Type} (o : Option α) (x : α) : o.getD (o.getD x) = o.getD x := by
  cases o <;> rfl

lemma applyAnswerPatch_id (a : LiveAnswer) (p : AnswerPatch) :
    (applyAnswerPatch a p).id = p.id := rfl

lemma applySessionPatch_id (s : LiveSession) (p : SessionPatch) :
    (applySessionPatch s p).id = p.id := rfl

lemma applyAnswerPatch_idem (a : LiveAnswer) (p : AnswerPatch) :
    applyAnswerPatch (applyAnswerPatch a p) p = applyAnswerPatch a p := by
  simp [applyAnswerPatch, getD_getD]

lemma applySessionPatch_idem (s : LiveSession) (p : SessionPatch) :
    applySessionPatch (applySessionPatch s p) p = applySessionPatch s p := by
  simp [applySessionPatch, getD_getD]

lemma answerReconcile_update_idem (prev : List LiveAnswer) (p : AnswerPatch) :
    answerReconcile (answerReconcile prev (.update p)) (.update p) =
      answerReconcile prev (.update p) := by
  simp only [answerReconcile, List.map_map]
  apply List.map_congr_left
  intro a _
  by_cases h : a.id = p.id
  · simp [Function.comp, h, applyAnswerPatch_id, applyAnswerPatch_idem]
  · simp [Function.comp, h]

lemma sessionReconcile_update_idem (prev : List LiveSession) (p : SessionPatch) :
    sessionReconcile (sessionReconcile prev (.update p)) (.update p) =
      sessionReconcile prev (.update p) := by
  simp only [sessionReconcile, List.map_map]
  apply List.map_congr_left
  intro s _
  by_cases h : s.id = p.id
  · simp [Function.comp, h, applySessionPatch_id, applySessionPatch_idem]
  · simp [Function.comp, h]

lemma answerReconcile_delete_idem (prev : List LiveAnswer) (i : String) :
    answerReconcile (answerReconcile prev (.delete i)) (.delete i) =
      answerReconcile prev (.delete i) := by
  simp only [answerReconcile]
  rw [List.filter_eq_self]
  intro a ha
  rw [List.mem_filter] at ha
  exact ha.2

lemma sessionReconcile_delete_idem (prev : List LiveSession) (i : String) :
    sessionReconcile (sessionReconcile prev (.delete i)) (.delete i) =
      sessionReconcile prev (.delete i) := by
  simp only [sessionReconcile]
  rw [List.filter_eq_self]
  intro s hs
  rw [List.mem_filter] at hs
  exact hs.2

/-- Claim C1 (counterexample): replaying an INSERT feed event is not
idempotent — applying the same INSERT twice to an empty answer store leaves
two copies of the record, not one. -/
theorem answerInsert_replay_not_idempotent :
    answerReconcile (answerReconcile [] (AnswerEvent.insert liveAnswerEx))
        (AnswerEvent.insert liveAnswerEx) ≠
      answerReconcile [] (AnswerEvent.insert liveAnswerEx) := by
  decide

/-- Claim C1 (amended): replaying an UPDATE or DELETE feed event is
idempotent on both the session store and the answer store, but replaying an
INSERT appends a second copy of the record — the handlers never check
whether the inserted id is already present. -/
theorem reconcile_update_delete_idem_insert_appends :
    (∀ (prev : List LiveAnswer) (p : AnswerPatch),
        answerReconcile (answerReconcile prev (.update p)) (.update p) =
          answerReconcile prev (.update p)) ∧
    (∀ (prev : List LiveAnswer) (i : String),
        answerReconcile (answerReconcile prev (.delete i)) (.delete i) =
          answerReconcile prev (.delete i)) ∧
    (∀ (prev : List LiveSession) (p : SessionPatch),
        sessionReconcile (sessionReconcile prev (.update p)) (.update p) =
          sessionReconcile prev (.update p)) ∧
    (∀ (prev : List LiveSession) (i : String),
        sessionReconcile (sessionReconcile prev (.delete i)) (.delete i) =
          sessionReconcile prev (.delete i)) ∧
    (∀ (prev : List LiveAnswer) (row : LiveAnswer),
        answerReconcile (answerReconcile prev (.insert row)) (.insert row) =
          prev ++ [row, row]) ∧
    (∀ (prev : List LiveSession) (s : LiveSession),
        sessionReconcile (sessionReconcile prev (.insert (some s)))
            (.insert (some s)) = prev ++ [s, s]) := by
  refine ⟨answerReconcile_update_idem, answerReconcile_delete_idem,
    sessionReconcile_update_idem, sessionReconcile_delete_idem, ?_, ?_⟩
  · intro prev row
    simp [answerReconcile]
  · intro prev s
    simp [sessionReconcile]

/-- Claim C2 (counterexample): an UPDATE whose row id is absent does not
insert a record, so UPDATE-then-INSERT and INSERT-then-UPDATE do not
converge: starting from the empty answer store, the two orders end in
different stores. -/
theorem updateBeforeInsert_order_dependent :
    answerReconcile [] (AnswerEvent.update answerPatchEx) = [] ∧
    answerReconcile (answerReconcile [] (AnswerEvent.update answerPatchEx))
        (AnswerEvent.insert liveAnswerEx) ≠
      answerReconcile (answerReconcile [] (AnswerEvent.insert liveAnswerEx))
        (AnswerEvent.update answerPatchEx) := by
  constructor
  · rfl
  · decide

/-- Claim C2 (amended): an UPDATE feed event whose row id is absent from the
store leaves the store unchanged — the reconciler does not crash, but it
drops the event instead of inserting an incomplete record, on both channels. -/
theorem update_absent_id_dropped :
    (∀ (prev : List LiveAnswer) (p : AnswerPatch), (∀ a ∈ prev, a.id ≠ p.id) →
        answerReconcile prev (.update p) = prev) ∧
    (∀ (prev : List LiveSession) (p : SessionPatch), (∀ s ∈ prev, s.id ≠ p.id) →
        sessionReconcile prev (.update p) = prev) := by
  constructor
  · intro prev p h
    simp only [answerReconcile]
    have hpt : ∀ a ∈ prev,
        (if a.id = p.id then applyAnswerPatch a p else a) = id a := by
      intro a ha
      simp [h a ha]
    rw [List.map_congr_left hpt, List.map_id]
  · intro prev p h
    simp only [sessionReconcile]
    have hpt : ∀ s ∈ prev,
        (if s.id = p.id then applySessionPatch s p else s) = id s := by
      intro s hs
      simp [h s hs]
    rw [List.map_congr_left hpt, List.map_id]

/-- Claim C2 (witness): the amended statement applied to a one-record store
and a patch with a fresh id. -/
theorem update_absent_id_dropped_witness :
    answerReconcile [liveAnswerEx] (AnswerEvent.update answerPatchAbsentEx) =
        [liveAnswerEx] ∧
    sessionReconcile [liveSessionEx] (SessionEvent.update sessionPatchAbsentEx) =
        [liveSessionEx] :=
  ⟨update_absent_id_dropped.1 [liveAnswerEx] answerPatchAbsentEx (by decide),
   update_absent_id_dropped.2 [liveSessionEx] sessionPatchAbsentEx (by decide)⟩

/-- Claim C8: for every state of the session and answer stores,
`getLiveStats` satisfies `gradedAnswers + pendingGrading = totalAnswers`,
where an answer counts as graded exactly when its `graded_by` field is
non-null. -/
theorem getLiveStats_graded_partition (ss : List LiveSession) (as : List LiveAnswer) :
    (getLiveStats ss as).gradedAnswers + (getLiveStats ss as).pendingGrading =
        (getLiveStats ss as).totalAnswers ∧
    (getLiveStats ss as).gradedAnswers =
        (as.filter (fun a => a.graded_by ≠ none)).length := by
  constructor
  · show (as.filter (fun a => a.graded_by ≠ none)).length +
        (as.length - (as.filter (fun a => a.graded_by ≠ none)).length) = as.length
    have hle := List.length_filter_le (fun a : LiveAnswer => decide (a.graded_by ≠ none)) as
    omega
  · rfl

lemma status_excl (st : String) :
    (¬((st = "active" ∨ st = "in_progress") ∧ (st = "completed" ∨ st = "submitted"))) ∧
    (¬((st = "active" ∨ st = "in_progress") ∧ st = "terminated")) ∧
    (¬((st = "completed" ∨ st = "submitted") ∧ st = "terminated")) := by
  refine ⟨?_, ?_, ?_⟩ <;> rintro ⟨h1 | h1, h2⟩ <;> subst h1 <;> revert h2 <;> decide

lemma counts_le (l : List LiveSession) :
    (l.filter (fun s => s.status = "active" ∨ s.status = "in_progress")).length +
      (l.filter (fun s => s.status = "completed" ∨ s.status = "submitted")).length +
      (l.filter (fun s => s.status = "terminated")).length ≤ l.length := by
  induction l with
  | nil => simp
  | cons x l ih =>
    have hx1 := (status_excl x.status).1
    have hx2 := (status_excl x.status).2.1
    have hx3 := (status_excl x.status).2.2
    simp only [List.filter_cons, List.length_cons]
    by_cases h1 : x.status = "active" ∨ x.status = "in_progress" <;>
      by_cases h2 : x.status = "completed" ∨ x.status = "submitted" <;>
      by_cases h3 : x.status = "terminated"
    · exact absurd ⟨h1, h2⟩ hx1
    · exact absurd ⟨h1, h2⟩ hx1
    · exact absurd ⟨h1, h3⟩ hx2
    · rw [if_pos (by simpa using h1), if_neg (by simpa using h2),
        if_neg (by simpa using h3)]
      simp only [List.length_cons]
      omega
    · exact absurd ⟨h2, h3⟩ hx3
    · rw [if_neg (by simpa using h1), if_pos (by simpa using h2),
        if_neg (by simpa using h3)]
      simp only [List.length_cons]
      omega
    · rw [if_neg (by simpa using h1), if_neg (by simpa using h2),
        if_pos (by simpa using h3)]
      simp only [List.length_cons]
      omega
    · rw [if_neg (by simpa using h1), if_neg (by simpa using h2),
        if_neg (by simpa using h3)]
      omega

lemma counts_lt (l : List LiveSession)
    (hex : ∃ s ∈ l, ¬(s.status = "active" ∨ s.status = "in_progress") ∧
      ¬(s.status = "completed" ∨ s.status = "submitted") ∧ ¬(s.status = "terminated")) :
    (l.filter (fun s => s.status = "active" ∨ s.status = "in_progress")).length +
      (l.filter (fun s => s.status = "completed" ∨ s.status = "submitted")).length +
      (l.filter (fun s => s.status = "terminated")).length < l.length := by
  induction l with
  | nil => simp at hex
  | cons x l ih =>
    obtain ⟨s, hs, hb1, hb2, hb3⟩ := hex
    rcases List.mem_cons.mp hs with rfl | hsl
    · simp only [List.filter_cons, List.length_cons]
      rw [if_neg (by simpa using hb1), if_neg (by simpa using hb2),
        if_neg (by simpa using hb3)]
      have hle := counts_le l
      omega
    · have hlt := ih ⟨s, hsl, hb1, hb2, hb3⟩
      have hx1 := (status_excl x.status).1
      have hx2 := (status_excl x.status).2.1
      have hx3 := (status_excl x.status).2.2
      simp only [List.filter_cons, List.length_cons]
      by_cases h1 : x.status = "active" ∨ x.status = "in_progress" <;>
        by_cases h2 : x.status = "completed" ∨ x.status = "submitted" <;>
        by_cases h3 : x.status = "terminated"
      · exact absurd ⟨h1, h2⟩ hx1
      · exact absurd ⟨h1, h2⟩ hx1
      · exact absurd ⟨h1, h3⟩ hx2
      · rw [if_pos (by simpa using h1), if_neg (by simpa using h2),
          if_neg (by simpa using h3)]
        simp only [List.length_cons]
        omega
      · exact absurd ⟨h2, h3⟩ hx3
      · rw [if_neg (by simpa using h1), if_pos (by simpa using h2),
          if_neg (by simpa using h3)]
        simp only [List.length_cons]
        omega
      · rw [if_neg (by simpa using h1), if_neg (by simpa using h2),
          if_pos (by simpa using h3)]
        simp only [List.length_cons]
        omega
      · rw [if_neg (by simpa using h1), if_neg (by simpa using h2),
          if_neg (by simpa using h3)]
        omega

/-- Claim C10: the three status classes counted by `getLiveStats` never
exceed the total session count, and the bound is strict as soon as some
session carries a status outside the five recognized values (such as
`not_started`), since such a session is counted in `totalSessions` but in
none of the three classes. -/
theorem getLiveStats_status_counts_bound (ss : List LiveSession) (as : List LiveAnswer) :
    (getLiveStats ss as).activeSessions + (getLiveStats ss as).submittedSessions +
        (getLiveStats ss as).terminatedSessions ≤ (getLiveStats ss as).totalSessions ∧
    ((∃ s ∈ ss, s.status ≠ "active" ∧ s.status ≠ "in_progress" ∧
        s.status ≠ "completed" ∧ s.status ≠ "submitted" ∧ s.status ≠ "terminated") →
      (getLiveStats ss as).activeSessions + (getLiveStats ss as).submittedSessions +
          (getLiveStats ss as).terminatedSessions < (getLiveStats ss as).totalSessions) := by
  constructor
  · exact counts_le ss
  · intro hex
    apply counts_lt ss
    obtain ⟨s, hs, h1, h2, h3, h4, h5⟩ := hex
    exact ⟨s, hs, by tauto, by tauto, h5⟩

/-- Claim C10 (witness): one `not_started` session makes the class sum
strictly smaller than the total. -/
theorem getLiveStats_status_counts_bound_witness :
    (getLiveStats [liveSessionNotStartedEx] []).activeSessions +
        (getLiveStats [liveSessionNotStartedEx] []).submittedSessions +
        (getLiveStats [liveSessionNotStartedEx] []).terminatedSessions <
      (getLiveStats [liveSessionNotStartedEx] []).totalSessions :=
  (getLiveStats_status_counts_bound [liveSessionNotStartedEx] []).2 (by decide)

/-- Claim C4: a successful `gradeAnswer` call writes the marks, the derived
correctness flag `marks > 0`, the grader id and the grading time into the
answer record with the given id; zero marks yield `is_correct = false` and
five marks yield `is_correct = true`. -/
theorem gradeAnswer_writes_fields (db : DB) (aid : Nat) (marks : Int) (g t : String)
    (b : AnswerRow) (hb : b ∈ (gradeAnswer db false aid marks g t).1.answers)
    (hid : b.id = aid) :
    (gradeAnswer db false aid marks g t).2 = true ∧
    b.marks_awarded = some marks ∧
    b.is_correct = some (decide (marks > 0)) ∧
    b.graded_by = some g ∧
    b.graded_at = some t ∧
    (marks = 0 → b.is_correct = some false) ∧
    (marks = 5 → b.is_correct = some true) := by
  have hred : gradeAnswer db false aid marks g t =
      ({ db with answers := db.answers.map (fun a =>
          if a.id = aid then
            { a with marks_awarded := some marks,
                     is_correct := some (decide (marks > 0)),
                     graded_by := some g,
                     graded_at := some t }
          else a) }, true) := rfl
  rw [hred] at hb
  simp only [List.mem_map] at hb
  obtain ⟨a, ha, hfa⟩ := hb
  by_cases h : a.id = aid
  · rw [if_pos h] at hfa
    refine ⟨by rw [hred], ?_, ?_, ?_, ?_, ?_, ?_⟩
    · rw [← hfa]
    · rw [← hfa]
    · rw [← hfa]
    · rw [← hfa]
    · rw [← hfa]
      intro h0
      subst h0
      show some (decide ((0 : Int) > 0)) = some false
      decide
    · rw [← hfa]
      intro h5
      subst h5
      show some (decide ((5 : Int) > 0)) = some true
      decide
  · rw [if_neg h] at hfa
    rw [← hfa] at hid
    exact absurd hid h

/-- Claim C4 (witness): grading the sole answer of `dbAnsEx` with 5 marks. -/
theorem gradeAnswer_writes_fields_witness :
    (gradeAnswer dbAnsEx false 0 5 "fac1" "T1").2 = true ∧
    answerRowGradedEx.marks_awarded = some 5 ∧
    answerRowGradedEx.is_correct = some (decide ((5 : Int) > 0)) ∧
    answerRowGradedEx.graded_by = some "fac1" ∧
    answerRowGradedEx.graded_at = some "T1" :=
  have h := gradeAnswer_writes_fields dbAnsEx 0 5 "fac1" "T1" answerRowGradedEx
    (by decide) (by decide)
  ⟨h.1, h.2.1, h.2.2.1, h.2.2.2.1, h.2.2.2.2.1⟩

/-- Claim C5 (counterexample): grading an answer id that exists nowhere in
the store does not report failure — the zero-row update is not an error for
the storage client, so the call returns `true`, contradicting the claimed
`false`. -/
theorem gradeAnswer_nonexistent_returns_true :
    dbAnsEx.answers.all (fun a => a.id ≠ 7) = true ∧
    (gradeAnswer dbAnsEx false 7 3 "fac1" "T1").2 ≠ false := by
  decide

/-- Claim C5 (amended): grading a nonexistent answer id performs no mutation
of any answer record, but the operation reports success (`true`) rather than
failure — the code only checks the error result of the update, and a filter
matching zero rows is not an error. -/
theorem gradeAnswer_nonexistent_no_mutation (db : DB) (aid : Nat) (marks : Int)
    (g t : String) (h : ∀ a ∈ db.answers, a.id ≠ aid) :
    gradeAnswer db false aid marks g t = (db, true) := by
  have hred : gradeAnswer db false aid marks g t =
      ({ db with answers := db.answers.map (fun a =>
          if a.id = aid then
            { a with marks_awarded := some marks,
                     is_correct := some (decide (marks > 0)),
                     graded_by := some g,
                     graded_at := some t }
          else a) }, true) := rfl
  rw [hred]
  have hpt : ∀ a ∈ db.answers,
      (if a.id = aid then
        { a with marks_awarded := some marks,
                 is_correct := some (decide (marks > 0)),
                 graded_by := some g,
                 graded_at := some t }
      else a) = id a := by
    intro a ha
    simp [h a ha]
  rw [List.map_congr_left hpt, List.map_id]

/-- Claim C5 (witness for the amended statement): grading the absent id 7 in
`dbAnsEx` leaves the store untouched and returns `true`. -/
theorem gradeAnswer_nonexistent_no_mutation_witness :
    gradeAnswer dbAnsEx false 7 3 "fac1" "T1" = (dbAnsEx, true) :=
  gradeAnswer_nonexistent_no_mutation dbAnsEx 7 3 "fac1" "T1" (by decide)

/-- Claim C9: `terminateStudent` sets the session status to `terminated`,
and a subsequent `allowContinue` on the same session sets it back to
`in_progress` — termination is not a dead end.  Both commands are modelled
from the spec because the `useRealtimeTestSessions` implementation is not
among the provided sources. -/
theorem terminate_then_allowContinue (db : DB) (sid : Nat)
    (h : ∃ s ∈ db.sessions, s.id = sid) :
    (∀ s ∈ (terminateStudent db sid).sessions, s.id = sid → s.status = "terminated") ∧
    (∃ s ∈ (terminateStudent db sid).sessions, s.id = sid ∧ s.status = "terminated") ∧
    (∀ s ∈ (allowContinue (terminateStudent db sid) sid).sessions,
        s.id = sid → s.status = "in_progress") ∧
    (∃ s ∈ (allowContinue (terminateStudent db sid) sid).sessions,
        s.id = sid ∧ s.status = "in_progress") := by
  obtain ⟨s0, hs0, hid0⟩ := h
  refine ⟨?_, ?_, ?_, ?_⟩
  · intro s hs hid
    simp only [terminateStudent, List.mem_map] at hs
    obtain ⟨a, ha, hfa⟩ := hs
    by_cases hA : a.id = sid
    · rw [if_pos hA] at hfa
      rw [← hfa]
    · rw [if_neg hA] at hfa
      rw [← hfa] at hid
      exact absurd hid hA
  · refine ⟨{ s0 with status := "terminated" }, ?_, hid0, rfl⟩
    simp only [terminateStudent, List.mem_map]
    exact ⟨s0, hs0, by rw [if_pos hid0]⟩
  · intro s hs hid
    simp only [allowContinue, List.mem_map] at hs
    obtain ⟨a, ha, hfa⟩ := hs
    by_cases hA : a.id = sid
    · rw [if_pos hA] at hfa
      rw [← hfa]
    · rw [if_neg hA] at hfa
      rw [← hfa] at hid
      exact absurd hid hA
  · refine ⟨{ s0 with status := "in_progress" }, ?_, hid0, rfl⟩
    simp only [allowContinue, List.mem_map]
    refine ⟨{ s0 with status := "terminated" }, ?_, by rw [if_pos hid0]⟩
    simp only [terminateStudent, List.mem_map]
    exact ⟨s0, hs0, by rw [if_pos hid0]⟩

/-- Claim C9 (witness): terminating then reinstating the session of `dbEx`. -/
theorem terminate_then_allowContinue_witness :
    (∃ s ∈ (terminateStudent dbEx 0).sessions, s.id = 0 ∧ s.status = "terminated") ∧
    (∃ s ∈ (allowContinue (terminateStudent dbEx 0) 0).sessions,
        s.id = 0 ∧ s.status = "in_progress") :=
  ⟨(terminate_then_allowContinue dbEx 0 (by decide)).2.1,
   (terminate_then_allowContinue dbEx 0 (by decide)).2.2.2⟩

lemma getOrCreateSession_found (db : DB) (fails : Bool) (tid stid t : String)
    (s : SessionRow)
    (hfil : db.sessions.filter
        (fun x => x.test_id = tid ∧ x.student_id = stid) = [s]) :
    getOrCreateSession db fails tid stid t = some (db, s) := by
  unfold getOrCreateSession
  rw [hfil]
  rfl

/-- Claim C7: `getOrCreateSession` returns an existing (testId, studentId)
session unchanged without creating anything; when no such session exists it
creates one with status `active` and `started_at` stamped, and a second
sequential call then returns that same session instead of creating a
duplicate. -/
theorem getOrCreateSession_idempotent (db : DB) (tid stid t : String) :
    (∀ s : SessionRow,
        db.sessions.filter (fun x => x.test_id = tid ∧ x.student_id = stid) = [s] →
        getOrCreateSession db false tid stid t = some (db, s)) ∧
    (db.sessions.filter (fun x => x.test_id = tid ∧ x.student_id = stid) = [] →
      ∃ s : SessionRow,
        getOrCreateSession db false tid stid t =
            some ({ db with sessions := db.sessions ++ [s],
                            nextSessionId := db.nextSessionId + 1 }, s) ∧
        s.status = "active" ∧ s.started_at = some t ∧
        s.test_id = tid ∧ s.student_id = stid ∧
        getOrCreateSession { db with sessions := db.sessions ++ [s],
                                     nextSessionId := db.nextSessionId + 1 }
            false tid stid t =
          some ({ db with sessions := db.sessions ++ [s],
                          nextSessionId := db.nextSessionId + 1 }, s)) := by
  constructor
  · intro s hfil
    exact getOrCreateSession_found db false tid stid t s hfil
  · intro hfil
    refine ⟨{ id := db.nextSessionId, test_id := tid, student_id := stid,
              status := "active", started_at := some t, submitted_at := none,
              total_warnings := 0, tab_switch_count := 0,
              fullscreen_exit_count := 0 }, ?_, rfl, rfl, rfl, rfl, ?_⟩
    · unfold getOrCreateSession
      rw [hfil]
      rfl
    · apply getOrCreateSession_found
      show (db.sessions ++ [_]).filter _ = _
      rw [List.filter_append, hfil]
      simp

/-- Claim C7 (witness): on the empty store the first call creates an active
session and the second call returns it unchanged. -/
theorem getOrCreateSession_idempotent_witness :
    ∃ s : SessionRow,
      getOrCreateSession dbEmpty false "t1" "stu1" "T0" =
          some ({ dbEmpty with sessions := dbEmpty.sessions ++ [s],
                               nextSessionId := dbEmpty.nextSessionId + 1 }, s) ∧
      s.status = "active" ∧ s.started_at = some "T0" ∧
      s.test_id = "t1" ∧ s.student_id = "stu1" ∧
      getOrCreateSession { dbEmpty with sessions := dbEmpty.sessions ++ [s],
                                        nextSessionId := dbEmpty.nextSessionId + 1 }
          false "t1" "stu1" "T0" =
        some ({ dbEmpty with sessions := dbEmpty.sessions ++ [s],
                             nextSessionId := dbEmpty.nextSessionId + 1 }, s) :=
  (getOrCreateSession_idempotent dbEmpty "t1" "stu1" "T0").2 (by decide)

lemma singleResult_eq_some {α : Type} {l : List α} {x : α}
    (h : singleResult l = some x) : l = [x] := by
  cases l with
  | nil => cases h
  | cons a tl =>
    cases tl with
    | nil =>
      have : a = x := Option.some.inj h
      rw [this]
    | cons b tl2 => cases h

lemma submitAnswer_sessions (db : DB) (fb : Bool) (sid : Nat) (q ans t : String) :
    ((submitAnswer db fb sid q ans t).1).sessions = db.sessions ∧
    ((submitAnswer db fb sid q ans t).1).nextSessionId = db.nextSessionId := by
  unfold submitAnswer
  cases hsing : singleResult (db.answers.filter
      (fun a => a.session_id = sid ∧ a.question_id = q)) with
  | none => cases fb <;> exact ⟨rfl, rfl⟩
  | some existing => cases fb <;> exact ⟨rfl, rfl⟩

lemma submitAnswer_fails (db : DB) (sid : Nat) (q ans t : String) :
    submitAnswer db true sid q ans t = (db, false) := by
  unfold submitAnswer
  cases hsing : singleResult (db.answers.filter
      (fun a => a.session_id = sid ∧ a.question_id = q)) with
  | none => rfl
  | some existing => rfl

lemma submitAnswer_exists (db : DB) (sid : Nat) (q ans t : String) :
    ∃ a ∈ ((submitAnswer db false sid q ans t).1).answers,
      a.session_id = sid ∧ a.question_id = q ∧ a.student_answer = some ans := by
  unfold submitAnswer
  cases hsing : singleResult (db.answers.filter
      (fun a => a.session_id = sid ∧ a.question_id = q)) with
  | none =>
    refine ⟨{ id := db.nextAnswerId, session_id := sid, question_id := q,
              student_answer := some ans, updated_at := none, marks_awarded := none,
              is_correct := none, graded_by := none, graded_at := none },
      ?_, rfl, rfl, rfl⟩
    simp
  | some existing =>
    have hfl := singleResult_eq_some hsing
    have hmem : existing ∈ db.answers.filter
        (fun a => a.session_id = sid ∧ a.question_id = q) := by
      rw [hfl]
      exact List.mem_singleton_self existing
    rw [List.mem_filter] at hmem
    obtain ⟨hmemdb, hpred⟩ := hmem
    rw [decide_eq_true_eq] at hpred
    refine ⟨{ existing with student_answer := some ans, updated_at := some t },
      ?_, hpred.1, hpred.2, rfl⟩
    show _ ∈ List.map _ db.answers
    apply List.mem_map.mpr
    exact ⟨existing, hmemdb, by rw [if_pos rfl]⟩

lemma submitAnswer_WF (db : DB) (fb : Bool) (sid : Nat) (q ans t : String)
    (hwf : DB.AnswersWF db) : DB.AnswersWF ((submitAnswer db fb sid q ans t).1) := by
  cases fb with
  | true => rw [submitAnswer_fails]; exact hwf
  | false =>
    obtain ⟨hnd, hlt⟩ := hwf
    unfold submitAnswer
    cases hsing : singleResult (db.answers.filter
        (fun a => a.session_id = sid ∧ a.question_id = q)) with
    | none =>
      constructor
      · show (List.map (fun a => a.id) (db.answers ++ [_])).Nodup
        rw [List.map_append]
        rw [List.nodup_append]
        refine ⟨hnd, List.nodup_singleton _, ?_⟩
        intro i hi hi2
        simp only [List.map_singleton, List.mem_singleton] at hi2
        rw [List.mem_map] at hi
        obtain ⟨a, ha, rfl⟩ := hi
        have := hlt a ha
        omega
      · intro a ha
        show a.id < db.nextAnswerId + 1
        have ha2 : a ∈ db.answers ++
            [{ id := db.nextAnswerId, session_id := sid, question_id := q,
               student_answer := some ans, updated_at := none, marks_awarded := none,
               is_correct := none, graded_by := none, graded_at := none }] := ha
        rw [List.mem_append] at ha2
        rcases ha2 with ha2 | ha2
        · have := hlt a ha2
          omega
        · rw [List.mem_singleton] at ha2
          rw [ha2]
          show db.nextAnswerId < db.nextAnswerId + 1
          omega
    | some existing =>
      have hidmap : List.map (fun a => a.id)
          (db.answers.map (fun a =>
            if a.id = existing.id then
              { a with student_answer := some ans, updated_at := some t }
            else a)) = List.map (fun a => a.id) db.answers := by
        rw [List.map_map]
        apply List.map_congr_left
        intro a _
        by_cases h : a.id = existing.id
        · simp [Function.comp, h]
        · simp [Function.comp, h]
      constructor
      · show (List.map (fun a => a.id) (db.answers.map (fun b =>
            if b.id = existing.id then
              { b with student_answer := some ans, updated_at := some t }
            else b))).Nodup
        rw [hidmap]
        exact hnd
      · intro a ha
        show a.id < db.nextAnswerId
        have ha2 : a ∈ db.answers.map (fun b =>
            if b.id = existing.id then
              { b with student_answer := some ans, updated_at := some t }
            else b) := ha
        rw [List.mem_map] at ha2
        obtain ⟨b, hb, hfb⟩ := ha2
        have hlb := hlt b hb
        by_cases h : b.id = existing.id
        · rw [if_pos h] at hfb
          rw [← hfb]
          exact hlb
        · rw [if_neg h] at hfb
          rw [← hfb]
          exact hlb

lemma submitAnswer_frame (db : DB) (fb : Bool) (sid : Nat) (q ans t : String)
    (hwf : DB.AnswersWF db) (b : AnswerRow) (hb : b ∈ db.answers)
    (hnm : ¬(b.session_id = sid ∧ b.question_id = q)) :
    b ∈ ((submitAnswer db fb sid q ans t).1).answers := by
  cases fb with
  | true => rw [submitAnswer_fails]; exact hb
  | false =>
    obtain ⟨hnd, _⟩ := hwf
    unfold submitAnswer
    cases hsing : singleResult (db.answers.filter
        (fun a => a.session_id = sid ∧ a.question_id = q)) with
    | none =>
      show b ∈ db.answers ++ [_]
      exact List.mem_append_left _ hb
    | some existing =>
      have hfl := singleResult_eq_some hsing
      have hmem : existing ∈ db.answers.filter
          (fun a => a.session_id = sid ∧ a.question_id = q) := by
        rw [hfl]
        exact List.mem_singleton_self existing
      rw [List.mem_filter] at hmem
      obtain ⟨hmemdb, hpred⟩ := hmem
      rw [decide_eq_true_eq] at hpred
      have hne : b.id ≠ existing.id := by
        intro hid
        have := List.inj_on_of_nodup_map hnd hb hmemdb hid
        rw [this] at hnm
        exact hnm hpred
      show b ∈ List.map _ db.answers
      apply List.mem_map.mpr
      exact ⟨b, hb, by rw [if_neg hne]⟩

lemma submitAnswer_pair_preserved (db : DB) (fb : Bool) (sid : Nat) (q ans t : String)
    (hp : DB.PairAtMostOne db sid) :
    DB.PairAtMostOne ((submitAnswer db fb sid q ans t).1) sid := by
  cases fb with
  | true => rw [submitAnswer_fails]; exact hp
  | false =>
    unfold submitAnswer
    cases hsing : singleResult (db.answers.filter
        (fun a => a.session_id = sid ∧ a.question_id = q)) with
    | none =>
      have hnil : db.answers.filter
          (fun a => a.session_id = sid ∧ a.question_id = q) = [] := by
        rcases hfl : db.answers.filter
            (fun a => a.session_id = sid ∧ a.question_id = q) with _ | ⟨x, _ | ⟨y, tl⟩⟩
        · exact hfl
        · rw [hfl] at hsing
          cases hsing
        · have hq := hp q
          rw [hfl] at hq
          simp at hq
      intro q2
      show ((db.answers ++
          [({ id := db.nextAnswerId, session_id := sid, question_id := q,
              student_answer := some ans, updated_at := none, marks_awarded := none,
              is_correct := none, graded_by := none,
              graded_at := none } : AnswerRow)]).filter
          (fun a : AnswerRow => a.session_id = sid ∧ a.question_id = q2)).length ≤ 1
      rw [List.filter_append, List.length_append]
      by_cases hq2 : q2 = q
      · subst hq2
        rw [hnil]
        have := List.length_filter_le
          (fun a : AnswerRow => decide (a.session_id = sid ∧ a.question_id = q2))
          [{ id := db.nextAnswerId, session_id := sid, question_id := q2,
             student_answer := some ans, updated_at := none, marks_awarded := none,
             is_correct := none, graded_by := none, graded_at := none }]
        simp only [List.length_nil, List.length_singleton] at this ⊢
        omega
      · have hrow : (List.filter
            (fun a : AnswerRow => decide (a.session_id = sid ∧ a.question_id = q2))
            [{ id := db.nextAnswerId, session_id := sid, question_id := q,
               student_answer := some ans, updated_at := none, marks_awarded := none,
               is_correct := none, graded_by := none, graded_at := none }]) = [] := by
          simp only [List.filter_cons, List.filter_nil]
          rw [if_neg]
          simp only [decide_eq_true_eq, not_and]
          intro _
          exact fun he => hq2 he.symm
        rw [hrow]
        have := hp q2
        simp only [List.length_nil]
        omega
    | some existing =>
      intro q2
      show ((db.answers.map (fun b : AnswerRow =>
          if b.id = existing.id then
            { b with student_answer := some ans, updated_at := some t }
          else b)).filter
          (fun a : AnswerRow => a.session_id = sid ∧ a.question_id = q2)).length ≤ 1
      have hlen : ((db.answers.map (fun b =>
          if b.id = existing.id then
            { b with student_answer := some ans, updated_at := some t }
          else b)).filter
          (fun a => a.session_id = sid ∧ a.question_id = q2)).length =
          (db.answers.filter
            (fun a => a.session_id = sid ∧ a.question_id = q2)).length := by
        rw [← List.countP_eq_length_filter, List.countP_map,
          ← List.countP_eq_length_filter]
        apply List.countP_congr
        intro b _
        by_cases h : b.id = existing.id
        · simp [Function.comp, h]
        · simp [Function.comp, h]
      rw [hlen]
      exact hp q2

lemma submitAnswer_all_text (db : DB) (sid : Nat) (q ans t : String)
    (hwf : DB.AnswersWF db) (hp : DB.PairAtMostOne db sid) :
    ∀ a ∈ ((submitAnswer db false sid q ans t).1).answers,
      a.session_id = sid → a.question_id = q → a.student_answer = some ans := by
  obtain ⟨hnd, _⟩ := hwf
  unfold submitAnswer
  cases hsing : singleResult (db.answers.filter
      (fun a => a.session_id = sid ∧ a.question_id = q)) with
  | none =>
    have hnil : db.answers.filter
        (fun a => a.session_id = sid ∧ a.question_id = q) = [] := by
      rcases hfl : db.answers.filter
          (fun a => a.session_id = sid ∧ a.question_id = q) with _ | ⟨x, _ | ⟨y, tl⟩⟩
      · exact hfl
      · rw [hfl] at hsing
        cases hsing
      · have hq := hp q
        rw [hfl] at hq
        simp at hq
    intro a ha hs hq2
    have ha2 : a ∈ db.answers ++
        [{ id := db.nextAnswerId, session_id := sid, question_id := q,
           student_answer := some ans, updated_at := none, marks_awarded := none,
           is_correct := none, graded_by := none, graded_at := none }] := ha
    rw [List.mem_append] at ha2
    rcases ha2 with ha2 | ha2
    · exfalso
      have hmem2 : a ∈ db.answers.filter
          (fun a => a.session_id = sid ∧ a.question_id = q) :=
        List.mem_filter.mpr ⟨ha2, by simp [hs, hq2]⟩
      rw [hnil] at hmem2
      exact List.not_mem_nil a hmem2
    · rw [List.mem_singleton] at ha2
      rw [ha2]
  | some existing =>
    have hfl := singleResult_eq_some hsing
    have hmem : existing ∈ db.answers.filter
        (fun a => a.session_id = sid ∧ a.question_id = q) := by
      rw [hfl]
      exact List.mem_singleton_self existing
    rw [List.mem_filter] at hmem
    obtain ⟨hmemdb, hpredd⟩ := hmem
    rw [decide_eq_true_eq] at hpredd
    intro a ha hs hq2
    have ha2 : a ∈ db.answers.map (fun b =>
        if b.id = existing.id then
          { b with student_answer := some ans, updated_at := some t }
        else b) := ha
    rw [List.mem_map] at ha2
    obtain ⟨b, hb, hfb⟩ := ha2
    by_cases h : b.id = existing.id
    · rw [if_pos h] at hfb
      rw [← hfb]
    · rw [if_neg h] at hfb
      subst hfb
      have hbf : b ∈ db.answers.filter
          (fun a => a.session_id = sid ∧ a.question_id = q) :=
        List.mem_filter.mpr ⟨hb, by simp [hs, hq2]⟩
      rw [hfl] at hbf
      rw [List.mem_singleton] at hbf
      exact absurd (by rw [hbf]) h

lemma submitAnswer_text_frame (db : DB) (fb : Bool) (sid : Nat) (qs anss t : String)
    (hwf : DB.AnswersWF db) (q ans : String) (hqq : q ≠ qs)
    (hall : ∀ a ∈ db.answers,
      a.session_id = sid → a.question_id = q → a.student_answer = some ans) :
    ∀ a ∈ ((submitAnswer db fb sid qs anss t).1).answers,
      a.session_id = sid → a.question_id = q → a.student_answer = some ans := by
  cases fb with
  | true => rw [submitAnswer_fails]; exact hall
  | false =>
    obtain ⟨hnd, _⟩ := hwf
    unfold submitAnswer
    cases hsing : singleResult (db.answers.filter
        (fun a => a.session_id = sid ∧ a.question_id = qs)) with
    | none =>
      intro a ha hs hq2
      have ha2 : a ∈ db.answers ++
          [{ id := db.nextAnswerId, session_id := sid, question_id := qs,
             student_answer := some anss, updated_at := none, marks_awarded := none,
             is_correct := none, graded_by := none, graded_at := none }] := ha
      rw [List.mem_append] at ha2
      rcases ha2 with ha2 | ha2
      · exact hall a ha2 hs hq2
      · rw [List.mem_singleton] at ha2
        subst ha2
        have hqs : qs = q := hq2
        exact absurd hqs.symm hqq
    | some existing =>
      have hfl := singleResult_eq_some hsing
      have hmem : existing ∈ db.answers.filter
          (fun a => a.session_id = sid ∧ a.question_id = qs) := by
        rw [hfl]
        exact List.mem_singleton_self existing
      rw [List.mem_filter] at hmem
      obtain ⟨hmemdb, hpredd⟩ := hmem
      rw [decide_eq_true_eq] at hpredd
      intro a ha hs hq2
      have ha2 : a ∈ db.answers.map (fun b =>
          if b.id = existing.id then
            { b with student_answer := some anss, updated_at := some t }
          else b) := ha
      rw [List.mem_map] at ha2
      obtain ⟨b, hb, hfb⟩ := ha2
      by_cases h : b.id = existing.id
      · have hbe : b = existing := List.inj_on_of_nodup_map hnd hb hmemdb h
        rw [if_pos h] at hfb
        rw [← hfb] at hq2
        have hbq : b.question_id = q := hq2
        rw [hbe, hpredd.2] at hbq
        exact absurd hbq.symm hqq
      · rw [if_neg h] at hfb
        subst hfb
        exact hall b hb hs hq2

lemma phase_WF (fA : String → Bool) (sid : Nat) (t : String)
    (entries : List (String × String)) :
    ∀ db : DB, DB.AnswersWF db →
      DB.AnswersWF (submitAnswersPhase db fA sid entries t) := by
  induction entries with
  | nil => intro db h; exact h
  | cons qa rest ih =>
    intro db h
    exact ih _ (submitAnswer_WF db (fA qa.1) sid qa.1 qa.2 t h)

lemma phase_pair (fA : String → Bool) (sid : Nat) (t : String)
    (entries : List (String × String)) :
    ∀ db : DB, DB.PairAtMostOne db sid →
      DB.PairAtMostOne (submitAnswersPhase db fA sid entries t) sid := by
  induction entries with
  | nil => intro db h; exact h
  | cons qa rest ih =>
    intro db h
    exact ih _ (submitAnswer_pair_preserved db (fA qa.1) sid qa.1 qa.2 t h)

lemma phase_sessions (fA : String → Bool) (sid : Nat) (t : String)
    (entries : List (String × String)) :
    ∀ db : DB, (submitAnswersPhase db fA sid entries t).sessions = db.sessions ∧
      (submitAnswersPhase db fA sid entries t).nextSessionId = db.nextSessionId := by
  induction entries with
  | nil => intro db; exact ⟨rfl, rfl⟩
  | cons qa rest ih =>
    intro db
    have h1 := ih ((submitAnswer db (fA qa.1) sid qa.1 qa.2 t).1)
    have h2 := submitAnswer_sessions db (fA qa.1) sid qa.1 qa.2 t
    exact ⟨h1.1.trans h2.1, h1.2.trans h2.2⟩

lemma phase_frame (fA : String → Bool) (sid : Nat) (t : String)
    (entries : List (String × String)) (b : AnswerRow) :
    ∀ db : DB, DB.AnswersWF db → b ∈ db.answers →
      (∀ qa ∈ entries, ¬(b.session_id = sid ∧ b.question_id = qa.1)) →
      b ∈ (submitAnswersPhase db fA sid entries t).answers := by
  induction entries with
  | nil => intro db _ hb _; exact hb
  | cons qa rest ih =>
    intro db hwf hb hnm
    exact ih _ (submitAnswer_WF db (fA qa.1) sid qa.1 qa.2 t hwf)
      (submitAnswer_frame db (fA qa.1) sid qa.1 qa.2 t hwf b hb
        (hnm qa (List.mem_cons_self qa rest)))
      (fun qa2 h2 => hnm qa2 (List.mem_cons_of_mem qa h2))

lemma phase_text_frame (fA : String → Bool) (sid : Nat) (t : String)
    (entries : List (String × String)) (q ans : String) :
    ∀ db : DB, DB.AnswersWF db → q ∉ entries.map Prod.fst →
      (∀ a ∈ db.answers,
        a.session_id = sid → a.question_id = q → a.student_answer = some ans) →
      ∀ a ∈ (submitAnswersPhase db fA sid entries t).answers,
        a.session_id = sid → a.question_id = q → a.student_answer = some ans := by
  induction entries with
  | nil => intro db _ _ hall; exact hall
  | cons qa rest ih =>
    intro db hwf hq hall
    have hq1 : q ≠ qa.1 := by
      intro he
      apply hq
      rw [he]
      exact List.mem_map.mpr ⟨qa, List.mem_cons_self qa rest, rfl⟩
    have hqr : q ∉ rest.map Prod.fst := by
      intro hmem
      apply hq
      simp only [List.map_cons, List.mem_cons]
      exact Or.inr hmem
    exact ih _ (submitAnswer_WF db (fA qa.1) sid qa.1 qa.2 t hwf) hqr
      (submitAnswer_text_frame db (fA qa.1) sid qa.1 qa.2 t hwf q ans hq1 hall)

lemma phase_exists (fA : String → Bool) (sid : Nat) (t : String)
    (entries : List (String × String)) :
    ∀ db : DB, DB.AnswersWF db → (entries.map Prod.fst).Nodup →
      ∀ qa ∈ entries, fA qa.1 = false →
      ∃ a ∈ (submitAnswersPhase db fA sid entries t).answers,
        a.session_id = sid ∧ a.question_id = qa.1 ∧ a.student_answer = some qa.2 := by
  induction entries with
  | nil => intro db _ _ qa h; exact absurd h (List.not_mem_nil qa)
  | cons qa0 rest ih =>
    intro db hwf hnodup qa hqa hfa
    have hnodup2 : (qa0.1 :: rest.map Prod.fst).Nodup := by
      rw [← List.map_cons]
      exact hnodup
    rcases List.mem_cons.mp hqa with rfl | hqar
    · obtain ⟨a, ha, hprop⟩ := submitAnswer_exists db sid qa.1 qa.2 t
      have ha2 : a ∈ ((submitAnswer db (fA qa.1) sid qa.1 qa.2 t).1).answers := by
        rw [hfa]
        exact ha
      have hWF2 := submitAnswer_WF db (fA qa.1) sid qa.1 qa.2 t hwf
      have hqnotin : qa.1 ∉ rest.map Prod.fst := (List.nodup_cons.mp hnodup2).1
      refine ⟨a, ?_, hprop⟩
      apply phase_frame fA sid t rest a _ hWF2 ha2
      intro qa2 h2 hc
      apply hqnotin
      rw [← hprop.2.1, hc.2]
      exact List.mem_map.mpr ⟨qa2, h2, rfl⟩
    · have hWF2 := submitAnswer_WF db (fA qa0.1) sid qa0.1 qa0.2 t hwf
      have hnodup3 : (rest.map Prod.fst).Nodup := (List.nodup_cons.mp hnodup2).2
      exact ih _ hWF2 hnodup3 qa hqar hfa

lemma phase_all_text (fA : String → Bool) (sid : Nat) (t : String)
    (entries : List (String × String)) :
    ∀ db : DB, DB.AnswersWF db → DB.PairAtMostOne db sid →
      (entries.map Prod.fst).Nodup →
      ∀ qa ∈ entries, fA qa.1 = false →
      ∀ a ∈ (submitAnswersPhase db fA sid entries t).answers,
        a.session_id = sid → a.question_id = qa.1 → a.student_answer = some qa.2 := by
  induction entries with
  | nil => intro db _ _ _ qa h; exact absurd h (List.not_mem_nil qa)
  | cons qa0 rest ih =>
    intro db hwf hp hnodup qa hqa hfa
    have hnodup2 : (qa0.1 :: rest.map Prod.fst).Nodup := by
      rw [← List.map_cons]
      exact hnodup
    rcases List.mem_cons.mp hqa with rfl | hqar
    · have hall0 := submitAnswer_all_text db sid qa.1 qa.2 t hwf hp
      have hall : ∀ a ∈ ((submitAnswer db (fA qa.1) sid qa.1 qa.2 t).1).answers,
          a.session_id = sid → a.question_id = qa.1 →
          a.student_answer = some qa.2 := by
        rw [hfa]
        exact hall0
      have hWF2 := submitAnswer_WF db (fA qa.1) sid qa.1 qa.2 t hwf
      have hqnotin : qa.1 ∉ rest.map Prod.fst := (List.nodup_cons.mp hnodup2).1
      exact phase_text_frame fA sid t rest qa.1 qa.2 _ hWF2 hqnotin hall
    · have hWF2 := submitAnswer_WF db (fA qa0.1) sid qa0.1 qa0.2 t hwf
      have hp2 := submitAnswer_pair_preserved db (fA qa0.1) sid qa0.1 qa0.2 t hp
      have hnodup3 : (rest.map Prod.fst).Nodup := (List.nodup_cons.mp hnodup2).2
      exact ih _ hWF2 hp2 hnodup3 qa hqar hfa

/-- Claim C3 (counterexample): a failing per-question answer write does not
make `submitTest` report failure — with the write for `q1` failing and the
status write succeeding, `submitTest` still returns `true`, contradicting
the claimed `false`. -/
theorem submitTest_swallows_answer_failure :
    failsQ1 "q1" = true ∧
    (submitTest dbEx failsQ1 false 0 [("q1", "42")] false "T1").2 = true := by
  decide

/-- Claim C3 (amended): the per-question answer writes are all attempted and
their failures are contained (a non-failing write still lands even when
another one fails), but no answer-write failure is surfaced: `submitTest`
returns `true` exactly when the session-status write succeeds, regardless of
answer-write failures. -/
theorem submitTest_result_independent_of_answer_failures (db : DB)
    (failsA : String → Bool) (sid : Nat) (entries : List (String × String))
    (forced : Bool) (t : String) (hwf : DB.AnswersWF db)
    (hnodup : (entries.map Prod.fst).Nodup) :
    (submitTest db failsA false sid entries forced t).2 = true ∧
    (submitTest db failsA true sid entries forced t).2 = false ∧
    (∀ qa ∈ entries, failsA qa.1 = false →
      ∃ a ∈ (submitTest db failsA false sid entries forced t).1.answers,
        a.session_id = sid ∧ a.question_id = qa.1 ∧
        a.student_answer = some qa.2) := by
  refine ⟨rfl, rfl, ?_⟩
  intro qa hqa hfa
  exact phase_exists failsA sid t entries db hwf hnodup qa hqa hfa

/-- Claim C3 (witness): with the `q1` write failing, `submitTest` still
returns `true` and the `q2` answer is still written. -/
theorem submitTest_result_witness :
    (submitTest dbEx failsQ1 false 0 [("q1", "42"), ("q2", "7")] false "T1").2 =
        true ∧
    (submitTest dbEx failsQ1 true 0 [("q1", "42"), ("q2", "7")] false "T1").2 =
        false ∧
    (∃ a ∈ (submitTest dbEx failsQ1 false 0 [("q1", "42"), ("q2", "7")]
        false "T1").1.answers,
      a.session_id = 0 ∧ a.question_id = "q2" ∧ a.student_answer = some "7") :=
  have h := submitTest_result_independent_of_answer_failures dbEx failsQ1 0
    [("q1", "42"), ("q2", "7")] false "T1" (by refine ⟨?_, ?_⟩ <;> decide)
    (by decide)
  ⟨h.1, h.2.1, h.2.2 ("q2", "7") (by decide) (by decide)⟩

/-- Claim C6: when every answer write and the status write succeed,
`submitTest` sets the session status to `terminated` when forced and
`completed` otherwise, stamps `submitted_at`, and upserts every entry of the
answers map so that the (sessionId, questionId) pair holds the latest
text of the entry. -/
theorem submitTest_success_effects (db : DB) (sid : Nat)
    (entries : List (String × String)) (forced : Bool) (t : String)
    (hwf : DB.AnswersWF db) (hp : DB.PairAtMostOne db sid)
    (hnodup : (entries.map Prod.fst).Nodup) :
    (submitTest db (fun _ => false) false sid entries forced t).2 = true ∧
    (∀ qa ∈ entries,
      ∃ a ∈ (submitTest db (fun _ => false) false sid entries forced t).1.answers,
        a.session_id = sid ∧ a.question_id = qa.1 ∧
        a.student_answer = some qa.2) ∧
    (∀ qa ∈ entries,
      ∀ a ∈ (submitTest db (fun _ => false) false sid entries forced t).1.answers,
        a.session_id = sid → a.question_id = qa.1 →
        a.student_answer = some qa.2) ∧
    (∀ s ∈ (submitTest db (fun _ => false) false sid entries forced t).1.sessions,
        s.id = sid → s.status = (if forced then "terminated" else "completed") ∧
          s.submitted_at = some t) ∧
    (∀ s ∈ db.sessions, s.id = sid →
      ∃ sr ∈ (submitTest db (fun _ => false) false sid entries forced t).1.sessions,
        sr.id = sid ∧ sr.status = (if forced then "terminated" else "completed") ∧
          sr.submitted_at = some t) := by
  refine ⟨rfl, ?_, ?_, ?_, ?_⟩
  · intro qa hqa
    exact phase_exists (fun _ => false) sid t entries db hwf hnodup qa hqa rfl
  · intro qa hqa a ha hs hq
    exact phase_all_text (fun _ => false) sid t entries db hwf hp hnodup
      qa hqa rfl a ha hs hq
  · intro s hs hid
    have hs2 : s ∈ (submitAnswersPhase db (fun _ => false) sid entries t).sessions.map
        (fun s0 => if s0.id = sid then
          { s0 with status := if forced then "terminated" else "completed",
                    submitted_at := some t }
        else s0) := hs
    rw [List.mem_map] at hs2
    obtain ⟨s0, hs0, hfs⟩ := hs2
    by_cases h : s0.id = sid
    · rw [if_pos h] at hfs
      rw [← hfs]
      exact ⟨rfl, rfl⟩
    · rw [if_neg h] at hfs
      rw [← hfs] at hid
      exact absurd hid h
  · intro s hs hid
    have hph := (phase_sessions (fun _ => false) sid t entries db).1
    refine ⟨{ s with status := if forced then "terminated" else "completed",
                     submitted_at := some t }, ?_, hid, rfl, rfl⟩
    show _ ∈ (submitAnswersPhase db (fun _ => false) sid entries t).sessions.map
        (fun s0 : SessionRow => if s0.id = sid then
          { s0 with status := if forced then "terminated" else "completed",
                    submitted_at := some t }
        else s0)
    rw [hph]
    exact List.mem_map.mpr ⟨s, hs, by rw [if_pos hid]⟩

/-- Claim C6 (witness): `submitTest` on a fresh session with the single
answer q1 ↦ 42, unforced: the call succeeds and the answer is upserted. -/
theorem submitTest_success_effects_witness :
    (submitTest dbEx (fun _ => false) false 0 [("q1", "42")] false "T1").2 = true ∧
    (∃ a ∈ (submitTest dbEx (fun _ => false) false 0 [("q1", "42")]
        false "T1").1.answers,
      a.session_id = 0 ∧ a.question_id = "q1" ∧
      a.student_answer = some "42") ∧
    (∃ sr ∈ (submitTest dbEx (fun _ => false) false 0 [("q1", "42")]
        false "T1").1.sessions,
      sr.id = 0 ∧ sr.status = (if false then "terminated" else "completed") ∧
        sr.submitted_at = some "T1") :=
  have h := submitTest_success_effects dbEx 0 [("q1", "42")] false "T1"
    (by refine ⟨?_, ?_⟩ <;> decide) (fun q => by simp [dbEx]) (by decide)
  ⟨h.1, h.2.1 ("q1", "42") (by decide),
   h.2.2.2.2 sessionRowEx (by decide) (by decide)⟩
